import Mathlib

/-!
# Verification of the in-memory analytical query engine

Shallow embedding of the SQL/analytics exercise solutions of the repository
(`exercises/combined/solutions/data_analysis_complete.py`,
`exercises/combined/solutions/alternative_approaches.py`,
`exercises/combined/solutions/api_design_complete.py`).

Each analytical function in the source executes a fixed SQL query through
`Database.execute_query` and maps the rows to Python dictionaries.  The
embedding models the dataset as typed in-memory tables, and translates each
query stage by stage (CTE by CTE) into a Lean function over those tables.

Conventions:
* SQL `numeric` / Python `float` money values are modelled as exact rationals.
* SQL `NULL` is modelled as `Option.none`; three-valued `WHERE` predicates on
  possibly-`NULL` operands are translated by the explicit `match` that the
  comparison performs (a `NULL` comparison filters the row out).
* A SQL evaluation error (division by zero raised by PostgreSQL) is modelled
  with `Except`; `Database.execute_query` catches `psycopg2.Error`, rolls back
  and returns `None`, which the callers turn into an empty result.
* Timestamps are modelled at day granularity (the queries only use `DATE`,
  month/year extraction, and day/month intervals).
-/

namespace InterviewPrep

/-- A calendar date.  The sources use PostgreSQL `date` / `timestamp` values
at day granularity. -/
structure Date where
  year : Int
  month : Nat
  day : Nat
  deriving DecidableEq, Repr

/-- Leap-year test of the Gregorian calendar. -/
def isLeap (y : Int) : Bool :=
  (y % 4 == 0 && y % 100 != 0) || y % 400 == 0

/-- Number of days of a month. -/
def daysInMonth (y : Int) (m : Nat) : Nat :=
  if m = 2 then (if isLeap y then 29 else 28)
  else if m = 4 ∨ m = 6 ∨ m = 9 ∨ m = 11 then 30
  else 31

/-- Serial day number of a date (days since 1970-01-01, civil-calendar
arithmetic).  Used to interpret day intervals and date subtraction. -/
def Date.toRata (d : Date) : Int :=
  let y : Int := if d.month ≤ 2 then d.year - 1 else d.year
  let era : Int := (if 0 ≤ y then y else y - 399) / 400
  let yoe : Int := y - era * 400
  let mp : Int := ((d.month : Int) + 9) % 12
  let doy : Int := (153 * mp + 2) / 5 + (d.day : Int) - 1
  let doe : Int := yoe * 365 + yoe / 4 - yoe / 100 + doy
  era * 146097 + doe - 719468

/-- `d - INTERVAL 'k months'` of PostgreSQL: move back `k` calendar months,
clamping the day to the length of the target month. -/
def Date.subMonths (d : Date) (k : Nat) : Date :=
  let t : Int := d.year * 12 + ((d.month : Int) - 1) - (k : Int)
  let y : Int := t / 12
  let m : Nat := (t % 12).toNat + 1
  { year := y, month := m, day := min d.day (daysInMonth y m) }

/-- Order status enum of the `orders` table. -/
inductive OrderStatus where
  | confirmed
  | shipped
  | delivered
  | cancelled
  deriving DecidableEq, Repr

/-- Row of the `customers` table (fields used by the analytics queries). -/
structure Customer where
  customer_id : Nat
  customer_name : String
  city : Option String
  deriving DecidableEq, Repr

/-- Row of the `categories` table. -/
structure Category where
  category_id : Nat
  category_name : String
  deriving DecidableEq, Repr

/-- Row of the `products` table (fields used by the analytics queries). -/
structure Product where
  product_id : Nat
  product_name : String
  category_id : Nat
  price : ℚ
  stock_quantity : Nat
  average_rating : Option ℚ
  deriving DecidableEq, Repr

/-- Row of the `orders` table (fields used by the analytics queries). -/
structure Order where
  order_id : Nat
  customer_id : Nat
  order_date : Date
  status : OrderStatus
  total_amount : ℚ
  deriving DecidableEq, Repr

/-- Row of the `order_items` table. -/
structure OrderItem where
  order_item_id : Nat
  order_id : Nat
  product_id : Nat
  quantity : Nat
  unit_price : ℚ
  total_price : ℚ
  deriving DecidableEq, Repr

/-- The loaded snapshot of all tables. -/
structure Dataset where
  customers : List Customer
  categories : List Category
  products : List Product
  orders : List Order
  order_items : List OrderItem
  deriving Repr

/-! ## product_performance (data_analysis_complete.py, lines 178-207) -/

/-- The `LEFT JOIN order_items oi ON p.product_id = oi.product_id` matches:
order items of one product. -/
def Dataset.itemsOf (ds : Dataset) (pid : Nat) : List OrderItem :=
  ds.order_items.filter (fun oi => decide (oi.product_id = pid))

/-- `COALESCE(SUM(oi.total_price), 0)` grouped by product: the sum over an
empty group is `NULL`, coalesced to 0, i.e. the plain sum over the matches. -/
def Dataset.productRevenue (ds : Dataset) (pid : Nat) : ℚ :=
  ((ds.itemsOf pid).map (fun oi => oi.total_price)).sum

/-- `COALESCE(SUM(oi.quantity), 0)` grouped by product. -/
def Dataset.productUnits (ds : Dataset) (pid : Nat) : Nat :=
  ((ds.itemsOf pid).map (fun oi => oi.quantity)).sum

/-- The `JOIN categories c ON p.category_id = c.category_id` lookup. -/
def Dataset.findCategory (ds : Dataset) (cid : Nat) : Option Category :=
  ds.categories.find? (fun c => decide (c.category_id = cid))

/-- One dictionary of the `product_performance` result list. -/
structure PerfRow where
  product_name : String
  category : String
  total_revenue : ℚ
  units_sold : Nat
  avg_rating : Option ℚ
  deriving DecidableEq, Repr

/-- The row built for one product: revenue/units from the left join, and the
Python post-processing `float(row[4]) if row[4] else None`, which maps both a
`NULL` rating and a rating of `0` to `None` (Python truthiness). -/
def Dataset.perfRowOf (ds : Dataset) (p : Product) (c : Category) : PerfRow :=
  { product_name := p.product_name
    category := c.category_name
    total_revenue := ds.productRevenue p.product_id
    units_sold := ds.productUnits p.product_id
    avg_rating :=
      match p.average_rating with
      | none => none
      | some r => if r = 0 then none else some r }

/-- Descending-revenue comparison used by `ORDER BY total_revenue DESC`. -/
def perfGE (a b : PerfRow) : Prop := b.total_revenue ≤ a.total_revenue

instance : DecidableRel perfGE := fun a b =>
  inferInstanceAs (Decidable (b.total_revenue ≤ a.total_revenue))

instance : IsTotal PerfRow perfGE := ⟨fun a b => (le_total a.total_revenue b.total_revenue).symm⟩

instance : IsTrans PerfRow perfGE := ⟨fun _ _ _ h h' => le_trans h' h⟩

/-- `product_performance` (SalesAnalytics): one row per product (inner join to
its category, left join to order items), ordered by total revenue descending. -/
def product_performance (ds : Dataset) : List PerfRow :=
  let rows := ds.products.filterMap (fun p =>
    (ds.findCategory p.category_id).map (fun c => ds.perfRowOf p c))
  rows.insertionSort perfGE

/-! ## abc_analysis (data_analysis_complete.py, lines 303-355) -/

/-- One row of the `product_revenue` CTE. -/
structure ProdRev where
  product_id : Nat
  product_name : String
  category_name : String
  total_revenue : ℚ
  deriving DecidableEq, Repr

/-- One row of the `product_revenue` CTE, for a product and its category. -/
def Dataset.prodRevRowOf (ds : Dataset) (p : Product) (c : Category) : ProdRev :=
  { product_id := p.product_id
    product_name := p.product_name
    category_name := c.category_name
    total_revenue := ds.productRevenue p.product_id }

/-- The `product_revenue` CTE: products joined to their category, left joined
to order items, with coalesced revenue. -/
def Dataset.productRevenueRows (ds : Dataset) : List ProdRev :=
  ds.products.filterMap (fun p =>
    (ds.findCategory p.category_id).map (fun c => ds.prodRevRowOf p c))

/-- The `WHERE total_revenue > 0` filter of the `with_percentiles` CTE. -/
def Dataset.positiveRevenueRows (ds : Dataset) : List ProdRev :=
  ds.productRevenueRows.filter (fun r => decide (0 < r.total_revenue))

/-- `SUM(total_revenue) OVER()` after the positivity filter. -/
def Dataset.totalAllRevenue (ds : Dataset) : ℚ :=
  (ds.positiveRevenueRows.map (fun r => r.total_revenue)).sum

/-- `SUM(total_revenue) OVER(ORDER BY total_revenue DESC)`: the default
window frame is `RANGE`-based, so the running sum at a row covers every row
whose revenue is greater than or equal to the row's revenue (all peers
included).  It therefore only depends on the revenue value `v`. -/
def Dataset.runningRevenue (ds : Dataset) (v : ℚ) : ℚ :=
  ((ds.positiveRevenueRows.filter (fun r => decide (v ≤ r.total_revenue))).map
    (fun r => r.total_revenue)).sum

/-- `(running_revenue / total_all_revenue) * 100`. -/
def Dataset.cumulativePercent (ds : Dataset) (v : ℚ) : ℚ :=
  ds.runningRevenue v / ds.totalAllRevenue * 100

/-- The `CASE` classifying a cumulative percent into A / B / C. -/
def abcClass (cp : ℚ) : String :=
  if cp ≤ 80 then "A" else if cp ≤ 95 then "B" else "C"

/-- Descending-revenue comparison for `ProdRev` rows. -/
def prodRevGE (a b : ProdRev) : Prop := b.total_revenue ≤ a.total_revenue

instance : DecidableRel prodRevGE := fun a b =>
  inferInstanceAs (Decidable (b.total_revenue ≤ a.total_revenue))

instance : IsTotal ProdRev prodRevGE := ⟨fun a b => (le_total a.total_revenue b.total_revenue).symm⟩

instance : IsTrans ProdRev prodRevGE := ⟨fun _ _ _ h h' => le_trans h' h⟩

/-- One row of the `classified` CTE as returned to Python. -/
structure ABCRow where
  product_name : String
  category : String
  total_revenue : ℚ
  cumulative_percent : ℚ
  deriving DecidableEq, Repr

/-- The `classified` CTE, ordered by `total_revenue DESC`. -/
def Dataset.classifiedRows (ds : Dataset) : List ABCRow :=
  (ds.positiveRevenueRows.insertionSort prodRevGE).map (fun r =>
    { product_name := r.product_name
      category := r.category_name
      total_revenue := r.total_revenue
      cumulative_percent := ds.cumulativePercent r.total_revenue })

/-- The result dictionary `{'A': [...], 'B': [...], 'C': [...]}` built by the
Python loop appending each row to the list of its class. -/
structure ABCResult where
  A : List ABCRow
  B : List ABCRow
  C : List ABCRow
  deriving DecidableEq, Repr

/-- `abc_analysis` (InventoryOptimizer). -/
def abc_analysis (ds : Dataset) : ABCResult :=
  let rows := ds.classifiedRows
  { A := rows.filter (fun r => abcClass r.cumulative_percent == "A")
    B := rows.filter (fun r => abcClass r.cumulative_percent == "B")
    C := rows.filter (fun r => abcClass r.cumulative_percent == "C") }

/-- All rows of an `abc_analysis` result, class A first, then B, then C. -/
def ABCResult.allRows (r : ABCResult) : List ABCRow := r.A ++ r.B ++ r.C

/-! ## get_top_customers (data_analysis_complete.py, lines 16-41) -/

/-- The `LEFT JOIN orders o ON c.customer_id = o.customer_id` matches:
orders of one customer. -/
def Dataset.customerOrders (ds : Dataset) (cid : Nat) : List Order :=
  ds.orders.filter (fun o => decide (o.customer_id = cid))

/-- `COALESCE(SUM(o.total_amount), 0)` grouped by customer. -/
def Dataset.totalSpent (ds : Dataset) (cid : Nat) : ℚ :=
  ((ds.customerOrders cid).map (fun o => o.total_amount)).sum

/-- `COUNT(o.order_id)` grouped by customer: counts the matched orders (the
left join's single all-`NULL` row of an order-less customer contributes 0). -/
def Dataset.orderCount (ds : Dataset) (cid : Nat) : Nat :=
  (ds.customerOrders cid).length

/-- One dictionary of the `get_top_customers` result list. -/
structure TopCustomerRow where
  customer_name : String
  total_spent : ℚ
  order_count : Nat
  deriving DecidableEq, Repr

/-- Descending comparison used by `ORDER BY total_spent DESC`. -/
def spentGE (a b : TopCustomerRow) : Prop := b.total_spent ≤ a.total_spent

instance : DecidableRel spentGE := fun a b =>
  inferInstanceAs (Decidable (b.total_spent ≤ a.total_spent))

instance : IsTotal TopCustomerRow spentGE :=
  ⟨fun a b => (le_total a.total_spent b.total_spent).symm⟩

instance : IsTrans TopCustomerRow spentGE := ⟨fun _ _ _ h h' => le_trans h' h⟩

/-- `get_top_customers` (CustomerAnalytics): per-customer lifetime totals,
ordered by total spent descending, `LIMIT limit`. -/
def get_top_customers (ds : Dataset) (limit : Nat) : List TopCustomerRow :=
  let rows := ds.customers.map (fun c =>
    { customer_name := c.customer_name
      total_spent := ds.totalSpent c.customer_id
      order_count := ds.orderCount c.customer_id : TopCustomerRow })
  (rows.insertionSort spentGE).take limit

/-! ## monthly_trends (data_analysis_complete.py, lines 127-176) and
monthly_trends_self_join (alternative_approaches.py, lines 152-192) -/

/-- `WHERE EXTRACT(YEAR FROM order_date) = year` with
`EXTRACT(MONTH FROM order_date) = month`: the orders of one calendar month.
No status filter appears in the query. -/
def Dataset.ordersInMonth (ds : Dataset) (y : Int) (m : Nat) : List Order :=
  ds.orders.filter (fun o => decide (o.order_date.year = y ∧ o.order_date.month = m))

/-- `SUM(total_amount)` of the orders of one calendar month of one year. -/
def Dataset.monthRevenue (ds : Dataset) (y : Int) (m : Nat) : ℚ :=
  ((ds.ordersInMonth y m).map (fun o => o.total_amount)).sum

/-- The months of the year with at least one order, ascending (the
`GROUP BY EXTRACT(MONTH FROM order_date)` keys with `ORDER BY month`). -/
def Dataset.monthsPresent (ds : Dataset) (y : Int) : List Nat :=
  (((ds.orders.filter (fun o => decide (o.order_date.year = y))).map
    (fun o => o.order_date.month)).dedup).insertionSort (· ≤ ·)

/-- One row of the `monthly_data` CTE. -/
structure MonthlyData where
  month : Nat
  revenue : ℚ
  order_count : Nat
  avg_order_value : ℚ
  deriving DecidableEq, Repr

/-- The `monthly_data` CTE: per present month, revenue, order count and
average order value. -/
def Dataset.monthlyData (ds : Dataset) (y : Int) : List MonthlyData :=
  (ds.monthsPresent y).map (fun m =>
    let os := ds.ordersInMonth y m
    { month := m
      revenue := ds.monthRevenue y m
      order_count := os.length
      avg_order_value := ds.monthRevenue y m / (os.length : ℚ) })

/-- The growth `CASE`: `WHEN prev_revenue IS NULL OR prev_revenue = 0 THEN 0
ELSE ((revenue - prev_revenue) / prev_revenue) * 100`.  (The Python
post-processing `float(row[4]) if row[4] else 0.0` maps 0 to 0.0 and keeps
every other value, so it is the identity on this result.) -/
def growthRate (prev : Option ℚ) (rev : ℚ) : ℚ :=
  match prev with
  | none => 0
  | some p => if p = 0 then 0 else (rev - p) / p * 100

/-- One dictionary of the `monthly_trends` result list. -/
structure MTRow where
  month : Nat
  revenue : ℚ
  order_count : Nat
  avg_order_value : ℚ
  growth_rate : ℚ
  deriving DecidableEq, Repr

/-- Builds a result row from a `monthly_data` row and the `LAG`/self-joined
previous revenue. -/
def mkMTRow (prev : Option ℚ) (r : MonthlyData) : MTRow :=
  { month := r.month
    revenue := r.revenue
    order_count := r.order_count
    avg_order_value := r.avg_order_value
    growth_rate := growthRate prev r.revenue }

/-- `monthly_trends` (SalesAnalytics): `LAG(revenue) OVER (ORDER BY month)`
pairs each present month with the previous *present* month's revenue
(`NULL` for the first row). -/
def monthly_trends (ds : Dataset) (y : Int) : List MTRow :=
  let md := ds.monthlyData y
  List.zipWith mkMTRow (none :: md.map (fun r => some r.revenue)) md

/-- `monthly_trends_self_join` (SalesAnalyticsAlternatives):
`LEFT JOIN monthly_data previous ON current.month = previous.month + 1`
pairs each present month with the *calendar*-previous month's revenue
(`NULL` when that month has no data). -/
def monthly_trends_self_join (ds : Dataset) (y : Int) : List MTRow :=
  let md := ds.monthlyData y
  md.map (fun r =>
    mkMTRow ((md.find? (fun pr => decide (r.month = pr.month + 1))).map
      (fun pr => pr.revenue)) r)

/-! ## customer_retention_rate (data_analysis_complete.py, lines 43-74) -/

/-- The `customers_months_back` CTE: distinct customers with an order in
`[CURRENT_DATE - 'm months' - '1 month', CURRENT_DATE - 'm months')`. -/
def Dataset.pastCustomers (ds : Dataset) (today : Date) (m : Nat) : List Nat :=
  ((ds.orders.filter (fun o =>
    decide (((today.subMonths m).subMonths 1).toRata ≤ o.order_date.toRata ∧
      o.order_date.toRata < (today.subMonths m).toRata))).map
    (fun o => o.customer_id)).dedup

/-- The `customers_recent` CTE: distinct customers with an order since
`CURRENT_DATE - INTERVAL '1 month'`. -/
def Dataset.recentCustomers (ds : Dataset) (today : Date) : List Nat :=
  ((ds.orders.filter (fun o =>
    decide ((today.subMonths 1).toRata ≤ o.order_date.toRata))).map
    (fun o => o.customer_id)).dedup

/-- `customer_retention_rate` (CustomerAnalytics): `retained / total * 100`
where `total` counts `customers_months_back` and `retained` counts the inner
join with `customers_recent`; the Python guard `result[0][0] > 0` returns 0.0
when the past cohort is empty. -/
def customer_retention_rate (ds : Dataset) (today : Date) (months_back : Nat) : ℚ :=
  let past := ds.pastCustomers today months_back
  let retained := (past.filter (fun cid => decide (cid ∈ ds.recentCustomers today))).length
  if 0 < past.length then ((retained : ℚ) / (past.length : ℚ)) * 100 else 0

/-! ## segment_customers (data_analysis_complete.py, lines 76-120) -/

/-- `MIN(o.order_date)` over a list of orders (`NULL` when empty), comparing
dates by serial day number. -/
def minOrderDate (os : List Order) : Option Date :=
  os.foldl (fun acc o =>
    match acc with
    | none => some o.order_date
    | some d => if o.order_date.toRata < d.toRata then some o.order_date else some d) none

/-- `MAX(o.order_date)` over a list of orders (`NULL` when empty). -/
def maxOrderDate (os : List Order) : Option Date :=
  os.foldl (fun acc o =>
    match acc with
    | none => some o.order_date
    | some d => if d.toRata < o.order_date.toRata then some o.order_date else some d) none

/-- One row of the `customer_order_summary` table. -/
structure CustomerOrderSummary where
  customer_id : Nat
  customer_name : String
  total_orders : Nat
  total_spent : ℚ
  first_order_date : Option Date
  last_order_date : Option Date
  deriving DecidableEq, Repr

/-- Modelled from the spec: the `customer_order_summary` table is created by
`database/schema.sql`, which is not among the sources (only its callers are).
Per the spec's data model and segmentation rules it carries, for every
customer, the lifetime order aggregates the segmentation queries read:
`total_orders`, `total_spent` (lifetime), and the first/last order dates
(`NULL` for customers without orders). -/
def Dataset.customer_order_summary (ds : Dataset) : List CustomerOrderSummary :=
  ds.customers.map (fun c =>
    let os := ds.customerOrders c.customer_id
    { customer_id := c.customer_id
      customer_name := c.customer_name
      total_orders := os.length
      total_spent := ds.totalSpent c.customer_id
      first_order_date := minOrderDate os
      last_order_date := maxOrderDate os })

/-- The `frequent_customer` CTE: customers joined to their orders of the last
6 months, `HAVING COUNT(o.order_id) > 5`. -/
def Dataset.frequentCustomers (ds : Dataset) (today : Date) : List String :=
  (ds.customers.filter (fun c =>
    decide (5 < ((ds.customerOrders c.customer_id).filter (fun o =>
      decide ((today.subMonths 6).toRata ≤ o.order_date.toRata))).length))).map
    (fun c => c.customer_name)

/-- The `big_spender` CTE: `total_orders > 0 AND (total_spent / total_orders)
> 200` over `customer_order_summary`. -/
def Dataset.bigSpenders (ds : Dataset) : List String :=
  ((ds.customer_order_summary).filter (fun s =>
    decide (0 < s.total_orders ∧ 200 < s.total_spent / (s.total_orders : ℚ)))).map
    (fun s => s.customer_name)

/-- The `at_risk` CTE: `total_orders > 0 AND last_order_date < CURRENT_DATE -
INTERVAL '3 months'` (a `NULL` last order date fails the comparison). -/
def Dataset.atRiskCustomers (ds : Dataset) (today : Date) : List String :=
  ((ds.customer_order_summary).filter (fun s =>
    decide (0 < s.total_orders) &&
      match s.last_order_date with
      | none => false
      | some d => decide (d.toRata < (today.subMonths 3).toRata))).map
    (fun s => s.customer_name)

/-- The `new` CTE: `first_order_date > CURRENT_DATE - INTERVAL '1 month'`
(a `NULL` first order date fails the comparison). -/
def Dataset.newCustomers (ds : Dataset) (today : Date) : List String :=
  ((ds.customer_order_summary).filter (fun s =>
    match s.first_order_date with
    | none => false
    | some d => decide ((today.subMonths 1).toRata < d.toRata))).map
    (fun s => s.customer_name)

/-- `segment_customers` (CustomerAnalytics): the Python dictionary is
initialised with the four segment keys in this order, and each `UNION ALL`
row `(segment, customer_name)` is appended to the list of its key, so each
key's final list is exactly its CTE's output. -/
def segment_customers (ds : Dataset) (today : Date) : List (String × List String) :=
  [("frequent", ds.frequentCustomers today),
   ("big_spender", ds.bigSpenders),
   ("at_risk", ds.atRiskCustomers today),
   ("new", ds.newCustomers today)]

/-! ## get_customer_lifetime_value (api_design_complete.py, lines 785-857) -/

/-- One row of the `customer_metrics` CTE. -/
structure ClvMetrics where
  customer_id : Nat
  customer_name : String
  total_spent : ℚ
  total_orders : Nat
  avg_order_value : ℚ
  last_order_date : Option Date
  first_order_date : Option Date
  deriving DecidableEq, Repr

/-- The `customer_metrics` CTE: customers left joined to their orders with
lifetime aggregates; `COALESCE(AVG(o.total_amount), 0)` is 0 for customers
without orders. -/
def Dataset.customerMetrics (ds : Dataset) (c : Customer) : ClvMetrics :=
  let os := ds.customerOrders c.customer_id
  { customer_id := c.customer_id
    customer_name := c.customer_name
    total_spent := ds.totalSpent c.customer_id
    total_orders := os.length
    avg_order_value :=
      if os.length = 0 then 0 else ds.totalSpent c.customer_id / (os.length : ℚ)
    last_order_date := maxOrderDate os
    first_order_date := minOrderDate os }

/-- The `predicted_clv` CASE of the `customer_clv` CTE:
0 for zero orders or a `NULL` first order date, otherwise
`avg_order_value * (total_orders / GREATEST(EXTRACT(DAYS FROM
(COALESCE(last_order_date, CURRENT_DATE) - first_order_date)) / 365.0, 0.1))
* 2`. -/
def predicted_clv (m : ClvMetrics) (today : Date) : ℚ :=
  if m.total_orders = 0 then 0 else
  match m.first_order_date with
  | none => 0
  | some fd =>
    let ld := m.last_order_date.getD today
    let years : ℚ := ((ld.toRata - fd.toRata : Int) : ℚ) / 365
    m.avg_order_value * ((m.total_orders : ℚ) / max years (1 / 10)) * 2

/-- The `order_frequency_per_year` CASE of the `customer_clv` CTE. -/
def order_frequency_per_year (m : ClvMetrics) (today : Date) : ℚ :=
  if m.total_orders = 0 then 0 else
  match m.first_order_date with
  | none => 0
  | some fd =>
    let ld := m.last_order_date.getD today
    let years : ℚ := ((ld.toRata - fd.toRata : Int) : ℚ) / 365
    (m.total_orders : ℚ) / max years (1 / 10)

/-- Python's `round(x, 2)` modelled on exact rationals: round to the nearest
hundredth, ties to the even hundredth. -/
def roundq2 (q : ℚ) : ℚ :=
  let x : ℚ := q * 100
  let n : Int := ⌊x⌋
  let frac : ℚ := x - (n : ℚ)
  let r : Int :=
    if frac < 1 / 2 then n
    else if 1 / 2 < frac then n + 1
    else if n % 2 = 0 then n else n + 1
  (r : ℚ) / 100

/-- One dictionary of the `get_customer_lifetime_value` result list. -/
structure ClvRow where
  customer_id : Nat
  customer_name : String
  total_spent : ℚ
  total_orders : Nat
  avg_order_value : ℚ
  order_frequency_per_year : ℚ
  predicted_clv : ℚ
  last_order_date : Option Date
  deriving DecidableEq, Repr

/-- Descending comparison used by `ORDER BY predicted_clv DESC`. -/
def clvGE (a b : ClvRow) : Prop := b.predicted_clv ≤ a.predicted_clv

instance : DecidableRel clvGE := fun a b =>
  inferInstanceAs (Decidable (b.predicted_clv ≤ a.predicted_clv))

instance : IsTotal ClvRow clvGE :=
  ⟨fun a b => (le_total a.predicted_clv b.predicted_clv).symm⟩

instance : IsTrans ClvRow clvGE := ⟨fun _ _ _ h h' => le_trans h' h⟩

/-- `get_customer_lifetime_value` (AnalyticsAPI): the CLV query over all
customers, optionally restricted by `WHERE customer_id = %s` (the Python
guard `if customer_id:` skips the restriction for the falsy id 0), ordered by
predicted CLV descending, `LIMIT 100`, with the frequency and CLV fields
rounded to two decimals. -/
def get_customer_lifetime_value (ds : Dataset) (today : Date)
    (customer_id : Option Nat) : List ClvRow :=
  let cs :=
    match customer_id with
    | none => ds.customers
    | some cid =>
      if cid = 0 then ds.customers
      else ds.customers.filter (fun c => decide (c.customer_id = cid))
  let rows := cs.map (fun c =>
    let m := ds.customerMetrics c
    { customer_id := m.customer_id
      customer_name := m.customer_name
      total_spent := m.total_spent
      total_orders := m.total_orders
      avg_order_value := m.avg_order_value
      order_frequency_per_year := roundq2 (order_frequency_per_year m today)
      predicted_clv := roundq2 (predicted_clv m today)
      last_order_date := m.last_order_date : ClvRow })
  (rows.insertionSort clvGE).take 100

/-! ## get_dashboard_metrics (api_design_complete.py, lines 636-783) -/

/-- The `date_mappings` lookup with default 30. -/
def dateRangeDays (date_range : String) : Nat :=
  if date_range = "last_7_days" then 7
  else if date_range = "last_30_days" then 30
  else if date_range = "last_90_days" then 90
  else if date_range = "last_365_days" then 365
  else 30

/-- The `current_period` CTE's row source:
`order_date >= CURRENT_DATE - INTERVAL 'days days'`. -/
def Dataset.currentPeriodOrders (ds : Dataset) (today : Date) (days : Nat) : List Order :=
  ds.orders.filter (fun o => decide (today.toRata - (days : Int) ≤ o.order_date.toRata))

/-- The `previous_period` CTE's row source: the window of the same length
immediately before the current one (`days * 2` back to `days` back). -/
def Dataset.previousPeriodOrders (ds : Dataset) (today : Date) (days : Nat) : List Order :=
  ds.orders.filter (fun o =>
    decide (today.toRata - ((days : Int) * 2) ≤ o.order_date.toRata ∧
      o.order_date.toRata < today.toRata - (days : Int)))

/-- `SUM(total_amount)` of the current period; the Python
`float(row[0]) if row[0] else 0` turns the `NULL` of an empty period into 0. -/
def Dataset.currentSales (ds : Dataset) (today : Date) (days : Nat) : ℚ :=
  ((ds.currentPeriodOrders today days).map (fun o => o.total_amount)).sum

/-- `SUM(total_amount)` of the previous period (`NULL` coalesced to 0). -/
def Dataset.previousSales (ds : Dataset) (today : Date) (days : Nat) : ℚ :=
  ((ds.previousPeriodOrders today days).map (fun o => o.total_amount)).sum

/-- `COUNT(DISTINCT order_id)` of the current period. -/
def Dataset.currentOrderCount (ds : Dataset) (today : Date) (days : Nat) : Nat :=
  (((ds.currentPeriodOrders today days).map (fun o => o.order_id)).dedup).length

/-- `COUNT(DISTINCT order_id)` of the previous period. -/
def Dataset.previousOrderCount (ds : Dataset) (today : Date) (days : Nat) : Nat :=
  (((ds.previousPeriodOrders today days).map (fun o => o.order_id)).dedup).length

/-- `COUNT(DISTINCT customer_id)` of the current period. -/
def Dataset.currentCustomerCount (ds : Dataset) (today : Date) (days : Nat) : Nat :=
  (((ds.currentPeriodOrders today days).map (fun o => o.customer_id)).dedup).length

/-- `COUNT(DISTINCT customer_id)` of the previous period. -/
def Dataset.previousCustomerCount (ds : Dataset) (today : Date) (days : Nat) : Nat :=
  (((ds.previousPeriodOrders today days).map (fun o => o.customer_id)).dedup).length

/-- The Python growth computation shared by the three dashboard rates:
`((current - previous) / previous * 100) if previous > 0 else 0`. -/
def guardedGrowth (cur prev : ℚ) : ℚ :=
  if 0 < prev then (cur - prev) / prev * 100 else 0

/-- The order lookup of the `JOIN orders o ON oi.order_id = o.order_id`. -/
def Dataset.findOrder (ds : Dataset) (oid : Nat) : Option Order :=
  ds.orders.find? (fun o => decide (o.order_id = oid))

/-- Whether an order item's parent order lies in the current window (the
join plus date filter of the `top_products` query). -/
def Dataset.itemInWindow (ds : Dataset) (today : Date) (days : Nat)
    (oi : OrderItem) : Bool :=
  match ds.findOrder oi.order_id with
  | none => false
  | some o => decide (today.toRata - (days : Int) ≤ o.order_date.toRata)

/-- One row of the `top_products` query result. -/
structure TopProductRow where
  product_name : String
  revenue : ℚ
  deriving DecidableEq, Repr

/-- Descending comparison used by `ORDER BY revenue DESC`. -/
def topProdGE (a b : TopProductRow) : Prop := b.revenue ≤ a.revenue

instance : DecidableRel topProdGE := fun a b =>
  inferInstanceAs (Decidable (b.revenue ≤ a.revenue))

instance : IsTotal TopProductRow topProdGE :=
  ⟨fun a b => (le_total a.revenue b.revenue).symm⟩

instance : IsTrans TopProductRow topProdGE := ⟨fun _ _ _ h h' => le_trans h' h⟩

/-- The `top_products` query: revenue per product over the in-window order
items (inner joins: a product appears only with at least one such item),
top 5 by revenue. -/
def Dataset.topProducts (ds : Dataset) (today : Date) (days : Nat) : List TopProductRow :=
  let rows := (ds.products.filter (fun p =>
    decide (((ds.itemsOf p.product_id).filter (ds.itemInWindow today days)).length ≠ 0))).map
    (fun p =>
      { product_name := p.product_name
        revenue := (((ds.itemsOf p.product_id).filter (ds.itemInWindow today days)).map
          (fun oi => oi.total_price)).sum : TopProductRow })
  (rows.insertionSort topProdGE).take 5

/-- The customer lookup of the `JOIN customers c ON o.customer_id =
c.customer_id`. -/
def Dataset.findCustomer (ds : Dataset) (cid : Nat) : Option Customer :=
  ds.customers.find? (fun c => decide (c.customer_id = cid))

/-- The non-`NULL` city of an order's customer, if any (`c.city IS NOT NULL`
filter of the geographic query). -/
def Dataset.orderCity (ds : Dataset) (o : Order) : Option String :=
  match ds.findCustomer o.customer_id with
  | none => none
  | some c => c.city

/-- One row of the geographic-distribution query result. -/
structure GeoRow where
  city : String
  revenue : ℚ
  orders : Nat
  deriving DecidableEq, Repr

/-- Descending comparison used by `ORDER BY revenue DESC`. -/
def geoGE (a b : GeoRow) : Prop := b.revenue ≤ a.revenue

instance : DecidableRel geoGE := fun a b =>
  inferInstanceAs (Decidable (b.revenue ≤ a.revenue))

instance : IsTotal GeoRow geoGE := ⟨fun a b => (le_total a.revenue b.revenue).symm⟩

instance : IsTrans GeoRow geoGE := ⟨fun _ _ _ h h' => le_trans h' h⟩

/-- The geographic query: in-window orders joined to customers with a
non-`NULL` city, grouped by city, top 10 by revenue. -/
def Dataset.geographicDistribution (ds : Dataset) (today : Date) (days : Nat) :
    List GeoRow :=
  let inWindow := ds.currentPeriodOrders today days
  let cities := (inWindow.filterMap (fun o => ds.orderCity o)).dedup
  let rows := cities.map (fun city =>
    let os := inWindow.filter (fun o => decide (ds.orderCity o = some city))
    { city := city
      revenue := (os.map (fun o => o.total_amount)).sum
      orders := ((os.map (fun o => o.order_id)).dedup).length : GeoRow })
  (rows.insertionSort geoGE).take 10

/-- The `metrics` sub-dictionary of the dashboard. -/
structure DashboardMetrics where
  total_sales : ℚ
  total_orders : Nat
  total_customers : Nat
  avg_order_value : ℚ
  deriving DecidableEq, Repr

/-- The `growth_rates` sub-dictionary of the dashboard. -/
structure GrowthRates where
  sales_growth : ℚ
  orders_growth : ℚ
  customers_growth : ℚ
  deriving DecidableEq, Repr

/-- The dictionary returned by `get_dashboard_metrics`. -/
structure Dashboard where
  date_range : String
  metrics : DashboardMetrics
  growth_rates : GrowthRates
  top_products : List TopProductRow
  geographic_distribution : List GeoRow
  deriving DecidableEq, Repr

/-- `get_dashboard_metrics` (AnalyticsAPI): current metrics, growth rates
against the previous period (rounded to two decimals), top products and
geographic distribution. -/
def get_dashboard_metrics (ds : Dataset) (today : Date) (date_range : String) :
    Dashboard :=
  let days := dateRangeDays date_range
  let curSales := ds.currentSales today days
  let curOrders := ds.currentOrderCount today days
  let curCustomers := ds.currentCustomerCount today days
  { date_range := date_range
    metrics :=
      { total_sales := curSales
        total_orders := curOrders
        total_customers := curCustomers
        avg_order_value := if 0 < curOrders then curSales / (curOrders : ℚ) else 0 }
    growth_rates :=
      { sales_growth := roundq2 (guardedGrowth curSales (ds.previousSales today days))
        orders_growth := roundq2 (guardedGrowth (curOrders : ℚ)
          ((ds.previousOrderCount today days : Nat) : ℚ))
        customers_growth := roundq2 (guardedGrowth (curCustomers : ℚ)
          ((ds.previousCustomerCount today days : Nat) : ℚ)) }
    top_products := ds.topProducts today days
    geographic_distribution := ds.geographicDistribution today days }

/-! ## detect_anomalies (data_analysis_complete.py, lines 209-249) -/

/-- The `daily_sales` CTE: orders of the last 90 days grouped by
`DATE(order_date)`, with the summed revenue per day. -/
def Dataset.windowOrders (ds : Dataset) (today : Date) : List Order :=
  ds.orders.filter (fun o => decide (today.toRata - 90 ≤ o.order_date.toRata))

/-- `SUM(total_amount)` of the window orders of one day. -/
def Dataset.dayRevenue (ds : Dataset) (today : Date) (d : Date) : ℚ :=
  (((ds.windowOrders today).filter (fun o => decide (o.order_date = d))).map
    (fun o => o.total_amount)).sum

/-- The `daily_sales` rows: one `(sale_date, daily_revenue)` pair per
distinct order date in the window. -/
def Dataset.dailySales (ds : Dataset) (today : Date) : List (Date × ℚ) :=
  (((ds.windowOrders today).map (fun o => o.order_date)).dedup).map (fun d =>
    (d, ds.dayRevenue today d))

/-- `AVG(daily_revenue)` of the `stats` CTE (meaningful when at least one day
is present). -/
def Dataset.dailyMean (ds : Dataset) (today : Date) : ℚ :=
  ((ds.dailySales today).map (fun p => p.2)).sum / ((ds.dailySales today).length : ℚ)

/-- The square of the sample standard deviation `STDDEV(daily_revenue)` of
the `stats` CTE (meaningful when at least two days are present; PostgreSQL's
`STDDEV` is the sample standard deviation, `NULL` below two rows). -/
def Dataset.dailyVariance (ds : Dataset) (today : Date) : ℚ :=
  (((ds.dailySales today).map
    (fun p => (p.2 - ds.dailyMean today) ^ 2)).sum) /
    (((ds.dailySales today).length : ℚ) - 1)

/-- The `WHERE ABS(ds.daily_revenue - st.mean_revenue) / st.stddev_revenue >
2` test, expressed on the squared scale: for a positive variance `v` it holds
exactly when `|d - m| / sqrt v > 2` (proved in `anomalyFlag_iff_zscore`). -/
def anomalyFlag (d m v : ℚ) : Bool :=
  decide (4 * v < (d - m) ^ 2)

/-- The PostgreSQL evaluation error raised by a division by zero. -/
inductive SqlErr where
  | divisionByZero
  deriving DecidableEq, Repr

/-- Descending comparison by `|daily_revenue - mean|`; dividing by the
(constant, positive) standard deviation preserves this order, so it models
`ORDER BY z_score DESC`. -/
def absDevGE (m : ℚ) (a b : Date × ℚ) : Prop := |b.2 - m| ≤ |a.2 - m|

instance (m : ℚ) : DecidableRel (absDevGE m) := fun a b =>
  inferInstanceAs (Decidable (|b.2 - m| ≤ |a.2 - m|))

instance (m : ℚ) : IsTotal (Date × ℚ) (absDevGE m) :=
  ⟨fun a b => (le_total |a.2 - m| |b.2 - m|).symm⟩

instance (m : ℚ) : IsTrans (Date × ℚ) (absDevGE m) :=
  ⟨fun _ _ _ h h' => le_trans h' h⟩

/-- The anomaly query as evaluated by PostgreSQL.  With no daily-sales row
the cross join is empty; with exactly one row the sample stddev is `NULL`, so
the `WHERE` comparison is `NULL` and filters every row out; with at least two
rows and zero variance the stddev is exactly 0 and the division by zero
raises an error; otherwise the flagged days are returned, largest z-score
first. -/
def Dataset.anomalyQuery (ds : Dataset) (today : Date) :
    Except SqlErr (List (Date × ℚ)) :=
  let sd := ds.dailySales today
  if sd.length < 2 then .ok []
  else if ds.dailyVariance today = 0 then .error .divisionByZero
  else .ok ((sd.filter (fun p =>
    anomalyFlag p.2 (ds.dailyMean today) (ds.dailyVariance today))).insertionSort
    (absDevGE (ds.dailyMean today)))

/-- One dictionary of the `detect_anomalies` result list.  The `z_score`
entry, `|daily_revenue - mean_revenue|` divided by the (irrational) standard
deviation, is exposed separately as `AnomRow.zscore`. -/
structure AnomRow where
  sale_date : Date
  daily_revenue : ℚ
  mean_revenue : ℚ
  anomaly_type : String
  deriving DecidableEq, Repr

/-- The `z_score` column of a result row, relative to a standard deviation. -/
noncomputable def AnomRow.zscore (r : AnomRow) (stddev : ℝ) : ℝ :=
  |(r.daily_revenue : ℝ) - (r.mean_revenue : ℝ)| / stddev

/-- `detect_anomalies` (SalesAnalytics): on a database error,
`Database.execute_query` catches the `psycopg2.Error`, rolls back and returns
`None`, and the `if rows:` guard yields `[]`; otherwise each flagged day
becomes a dictionary, classified `'spike' if row[1] > row[2] else 'drop'`. -/
def detect_anomalies (ds : Dataset) (today : Date) : List AnomRow :=
  match ds.anomalyQuery today with
  | .error _ => []
  | .ok days => days.map (fun p =>
    { sale_date := p.1
      daily_revenue := p.2
      mean_revenue := ds.dailyMean today
      anomaly_type := if ds.dailyMean today < p.2 then "spike" else "drop" })

/-! ## Dataset extension (for stating how aggregates react to new rows) -/

/-- A snapshot extended by one more order row. -/
def Dataset.addOrder (ds : Dataset) (o : Order) : Dataset :=
  { ds with orders := ds.orders ++ [o] }

/-- A snapshot extended by one more order-item row. -/
def Dataset.addItem (ds : Dataset) (oi : OrderItem) : Dataset :=
  { ds with order_items := ds.order_items ++ [oi] }

/-! ## Concrete fixtures used by the counterexamples and witnesses -/

/-- A single category. -/
def cat1 : Category := { category_id := 1, category_name := "Cat" }

/-- A single customer. -/
def cust1 : Customer := { customer_id := 1, customer_name := "Alice", city := none }

/-- Product P1, price 100. -/
def prodP1 : Product :=
  { product_id := 1, product_name := "P1", category_id := 1, price := 100
    stock_quantity := 10, average_rating := none }

/-- Product P2, price 50. -/
def prodP2 : Product :=
  { product_id := 2, product_name := "P2", category_id := 1, price := 50
    stock_quantity := 10, average_rating := none }

/-- One confirmed order of 200. -/
def orderA : Order :=
  { order_id := 1, customer_id := 1
    order_date := { year := 2023, month := 6, day := 1 }
    status := .confirmed, total_amount := 200 }

/-- Two units of P1 at 100 within `orderA`. -/
def itemA : OrderItem :=
  { order_item_id := 1, order_id := 1, product_id := 1, quantity := 2
    unit_price := 100, total_price := 200 }

/-- The scenario of the spec's concrete test: P1 with 2 units sold in one
order, P2 with no sales. -/
def scenarioDs : Dataset :=
  { customers := [cust1], categories := [cat1], products := [prodP1, prodP2]
    orders := [orderA], order_items := [itemA] }

/-- A product whose `average_rating` is 0 (within the documented 0-5 range)
and which has no sales. -/
def ratingZeroProd : Product :=
  { product_id := 1, product_name := "P", category_id := 1, price := 10
    stock_quantity := 0, average_rating := some 0 }

/-- A dataset holding only `ratingZeroProd`. -/
def ratingZeroDs : Dataset :=
  { customers := [], categories := [cat1], products := [ratingZeroProd]
    orders := [], order_items := [] }

/-- A dataset with one customer and no orders. -/
def noOrdersDs : Dataset :=
  { customers := [cust1], categories := [], products := []
    orders := [], order_items := [] }

/-- A cancelled order of 100 placed in January 2023. -/
def cancelledOrder : Order :=
  { order_id := 1, customer_id := 1
    order_date := { year := 2023, month := 1, day := 15 }
    status := .cancelled, total_amount := 100 }

/-- A 1000 order in January 2023. -/
def orderJan : Order :=
  { order_id := 1, customer_id := 1
    order_date := { year := 2023, month := 1, day := 10 }
    status := .confirmed, total_amount := 1000 }

/-- A 1500 order in March 2023. -/
def orderMar : Order :=
  { order_id := 2, customer_id := 1
    order_date := { year := 2023, month := 3, day := 10 }
    status := .confirmed, total_amount := 1500 }

/-- A year with orders only in January. -/
def onlyJanuaryDs : Dataset :=
  { customers := [cust1], categories := [], products := []
    orders := [orderJan], order_items := [] }

/-- A year with a January order and a March order, February empty. -/
def janMarDs : Dataset :=
  { customers := [cust1], categories := [], products := []
    orders := [orderJan, orderMar], order_items := [] }

/-- The reference date of the concrete fixtures. -/
def todayX : Date := { year := 2023, month := 6, day := 15 }

/-- Two orders of the same amount on two distinct days inside the 90-day
window before `todayX`: the per-day revenues are equal, so their sample
standard deviation is exactly 0 while being non-`NULL`. -/
def equalDaysDs : Dataset :=
  { customers := [cust1], categories := [], products := []
    orders :=
      [{ order_id := 1, customer_id := 1
         order_date := { year := 2023, month := 6, day := 1 }
         status := .confirmed, total_amount := 100 },
       { order_id := 2, customer_id := 1
         order_date := { year := 2023, month := 6, day := 2 }
         status := .confirmed, total_amount := 100 }]
    order_items := [] }

/-- An order of 300 by customer 1 on day `i` of June 2023. -/
def juneOrder (i : Nat) : Order :=
  { order_id := i, customer_id := 1
    order_date := { year := 2023, month := 6, day := i }
    status := .confirmed, total_amount := 300 }

/-- Six 300 orders within the month before `todayX`: customer `Alice` is
simultaneously a frequent customer, a big spender and a new customer. -/
def sixOrdersDs : Dataset :=
  { customers := [cust1], categories := [], products := []
    orders := [juneOrder 1, juneOrder 2, juneOrder 3, juneOrder 4, juneOrder 5, juneOrder 6]
    order_items := [] }

/-- A dataset where `Alice` has exactly one order. -/
def oneOrderDs : Dataset :=
  { customers := [cust1], categories := [], products := []
    orders := [orderA], order_items := [] }

/-! ## Claim C2 -/

/-- Evaluation of `abc_analysis` on the spec's concrete scenario. -/
theorem abc_scenario_eval :
    abc_analysis scenarioDs =
      { A := [], B := []
        C := [{ product_name := "P1", category := "Cat", total_revenue := 200
                cumulative_percent := 100 }] } := by
  norm_num [abc_analysis, Dataset.classifiedRows, Dataset.positiveRevenueRows,
    Dataset.productRevenueRows, Dataset.prodRevRowOf, Dataset.productRevenue, Dataset.itemsOf,
    Dataset.findCategory, Dataset.cumulativePercent, Dataset.runningRevenue,
    Dataset.totalAllRevenue, abcClass, scenarioDs, prodP1, prodP2, cat1, itemA,
    List.insertionSort, List.orderedInsert, List.find?, List.filterMap_cons,
    List.sum_cons]
  decide

/-- Evaluation of `product_performance` on the spec's concrete scenario. -/
theorem perf_scenario_eval :
    product_performance scenarioDs =
      [{ product_name := "P1", category := "Cat", total_revenue := 200
         units_sold := 2, avg_rating := none },
       { product_name := "P2", category := "Cat", total_revenue := 0
         units_sold := 0, avg_rating := none }] := by
  norm_num [product_performance, Dataset.perfRowOf, Dataset.productRevenue,
    Dataset.productUnits, Dataset.itemsOf, Dataset.findCategory, scenarioDs,
    prodP1, prodP2, cat1, itemA, List.insertionSort, List.orderedInsert,
    List.find?, List.filterMap_cons, List.sum_cons, perfGE]

/-- C2, counterexample: on the spec's own concrete scenario (P1 with revenue
200 and P2 with none), `abc_analysis` does NOT classify P1 as class `'A'`:
P1's cumulative percent is 100, which fails both `<= 80` and `<= 95`, so P1
lands in class `'C'` and the `'A'` list is empty. -/
theorem claim_C2_counterexample :
    (abc_analysis scenarioDs).A = [] ∧
    (abc_analysis scenarioDs).C =
      [{ product_name := "P1", category := "Cat", total_revenue := 200
         cumulative_percent := 100 }] := by
  rw [abc_scenario_eval]
  exact ⟨rfl, rfl⟩

/-- C2, amended: for the dataset with products P1 (price 100, 2 units sold in
one order) and P2 (price 50, 0 units sold), `product_performance` yields P1
with revenue 200 and units 2 and P2 with revenue 0 and units 0, and
`abc_analysis` — where only P1 has positive revenue — classifies P1 as class
`'C'` with cumulative_percent 100 (a sole revenue-bearing product sits at
cumulative 100%, above both class thresholds). -/
theorem claim_C2_amended :
    product_performance scenarioDs =
      [{ product_name := "P1", category := "Cat", total_revenue := 200
         units_sold := 2, avg_rating := none },
       { product_name := "P2", category := "Cat", total_revenue := 0
         units_sold := 0, avg_rating := none }] ∧
    abc_analysis scenarioDs =
      { A := [], B := []
        C := [{ product_name := "P1", category := "Cat", total_revenue := 200
                cumulative_percent := 100 }] } :=
  ⟨perf_scenario_eval, abc_scenario_eval⟩

/-! ## Claim C4 -/

/-- C4, divergence witness: a product carrying the legitimate rating 0 has
rating data, yet `product_performance` reports its `avg_rating` as `None`,
because `float(row[4]) if row[4] else None` treats the falsy 0 like `NULL`.
The remaining fields behave as the claim states (one row for the product,
revenue 0 and units 0 for the saleless product). -/
theorem claim_C4_rating_zero_dropped :
    ratingZeroProd.average_rating = some 0 ∧
    product_performance ratingZeroDs =
      [{ product_name := "P", category := "Cat", total_revenue := 0
         units_sold := 0, avg_rating := none }] := by
  refine ⟨rfl, ?_⟩
  norm_num [product_performance, Dataset.perfRowOf, Dataset.productRevenue,
    Dataset.productUnits, Dataset.itemsOf, Dataset.findCategory, ratingZeroDs,
    ratingZeroProd, cat1, List.insertionSort, List.orderedInsert, List.find?,
    List.filterMap_cons]

/-! ## Claim C3 -/

/-- C3, counterexample: adding a cancelled order to a dataset does NOT leave
the revenue aggregates unchanged — `monthly_trends` has no status filter, so
the cancelled order's 100 shows up as January revenue. -/
theorem claim_C3_counterexample :
    cancelledOrder.status = OrderStatus.cancelled ∧
    monthly_trends (noOrdersDs.addOrder cancelledOrder) 2023 ≠
      monthly_trends noOrdersDs 2023 ∧
    monthly_trends (noOrdersDs.addOrder cancelledOrder) 2023 =
      [{ month := 1, revenue := 100, order_count := 1, avg_order_value := 100
         growth_rate := 0 }] := by
  have hwith : monthly_trends (noOrdersDs.addOrder cancelledOrder) 2023 =
      [{ month := 1, revenue := 100, order_count := 1, avg_order_value := 100
         growth_rate := 0 }] := by
    norm_num [monthly_trends, Dataset.monthlyData, Dataset.monthsPresent,
      Dataset.ordersInMonth, Dataset.monthRevenue, mkMTRow, growthRate,
      noOrdersDs, cancelledOrder, Dataset.addOrder, List.insertionSort,
      List.orderedInsert]
  have hbase : monthly_trends noOrdersDs 2023 = [] := rfl
  refine ⟨rfl, ?_, hwith⟩
  rw [hwith, hbase]
  exact fun h => List.cons_ne_nil _ _ h

/-- C3, amended: cancelled orders are NOT excluded from the revenue-bearing
aggregations — none of the queries filters on `status`.  Adding a cancelled
order adds its `total_amount` to the affected month's `monthly_trends`
revenue and to its customer's `get_top_customers` total; product-performance
revenue counts order items without consulting the parent order's status at
all (adding an item changes it, adding an order alone never does); and the
cancelled order remains present in the orders table for status/audit
queries. -/
theorem claim_C3_amended (ds : Dataset) (o : Order) (oi : OrderItem)
    (y : Int) (m : Nat) (cid pid : Nat)
    (_hst : o.status = OrderStatus.cancelled) :
    ((ds.addOrder o).monthRevenue y m =
      ds.monthRevenue y m +
        (if o.order_date.year = y ∧ o.order_date.month = m then o.total_amount else 0)) ∧
    ((ds.addOrder o).totalSpent cid =
      ds.totalSpent cid + (if o.customer_id = cid then o.total_amount else 0)) ∧
    ((ds.addItem oi).productRevenue pid =
      ds.productRevenue pid + (if oi.product_id = pid then oi.total_price else 0)) ∧
    ((ds.addOrder o).productRevenue pid = ds.productRevenue pid) ∧
    o ∈ (ds.addOrder o).orders := by
  refine ⟨?_, ?_, ?_, rfl, by simp [Dataset.addOrder]⟩
  · unfold Dataset.monthRevenue Dataset.ordersInMonth Dataset.addOrder
    dsimp only
    rw [List.filter_append, List.map_append, List.sum_append]
    by_cases h : o.order_date.year = y ∧ o.order_date.month = m
    · simp [h]
    · simp [h]
  · unfold Dataset.totalSpent Dataset.customerOrders Dataset.addOrder
    dsimp only
    rw [List.filter_append, List.map_append, List.sum_append]
    by_cases h : o.customer_id = cid
    · simp [h]
    · simp [h]
  · unfold Dataset.productRevenue Dataset.itemsOf Dataset.addItem
    dsimp only
    rw [List.filter_append, List.map_append, List.sum_append]
    by_cases h : oi.product_id = pid
    · simp [h]
    · simp [h]

/-- C3, witness: the amended statement applied to the empty-order fixture and
the concrete cancelled January order. -/
theorem claim_C3_witness :
    (noOrdersDs.addOrder cancelledOrder).monthRevenue 2023 1 =
      noOrdersDs.monthRevenue 2023 1 +
        (if cancelledOrder.order_date.year = 2023 ∧ cancelledOrder.order_date.month = 1
          then cancelledOrder.total_amount else 0) :=
  (claim_C3_amended noOrdersDs cancelledOrder itemA 2023 1 1 1 rfl).1

/-! ## Claim C5 -/

/-- C5, counterexample: a year whose orders all sit in January has empty
calendar months inside the year (February among them), yet the two
`monthly_trends` implementations return identical rows — a missing month
does not by itself make the growth rates differ. -/
theorem claim_C5_counterexample :
    onlyJanuaryDs.ordersInMonth 2023 2 = [] ∧
    monthly_trends onlyJanuaryDs 2023 = monthly_trends_self_join onlyJanuaryDs 2023 := by
  refine ⟨rfl, ?_⟩
  norm_num [monthly_trends, monthly_trends_self_join, Dataset.monthlyData,
    Dataset.monthsPresent, Dataset.ordersInMonth, Dataset.monthRevenue,
    onlyJanuaryDs, orderJan, List.insertionSort, List.orderedInsert,
    growthRate, mkMTRow]

/-- C5, amended: the two implementations can disagree when a month with data
follows a gap: for a year with only January (1000) and March (1500) data and
February empty, each yields exactly two rows; the window-function version
takes January as March's previous month (growth 50) while the calendar
self-join finds no February row and yields growth 0. -/
theorem claim_C5_amended :
    monthly_trends janMarDs 2023 =
      [{ month := 1, revenue := 1000, order_count := 1, avg_order_value := 1000
         growth_rate := 0 },
       { month := 3, revenue := 1500, order_count := 1, avg_order_value := 1500
         growth_rate := 50 }] ∧
    monthly_trends_self_join janMarDs 2023 =
      [{ month := 1, revenue := 1000, order_count := 1, avg_order_value := 1000
         growth_rate := 0 },
       { month := 3, revenue := 1500, order_count := 1, avg_order_value := 1500
         growth_rate := 0 }] := by
  constructor <;>
  · norm_num [monthly_trends, monthly_trends_self_join, Dataset.monthlyData,
      Dataset.monthsPresent, Dataset.ordersInMonth, Dataset.monthRevenue,
      janMarDs, orderJan, orderMar, List.insertionSort, List.orderedInsert,
      growthRate, mkMTRow, List.find?]

/-! ## Claim C1 (counterexample) -/

/-- C1, counterexample: with two in-window days of identical revenue the
sample standard deviation is exactly 0 (not `NULL`), so the query's `WHERE
ABS(daily_revenue - mean_revenue) / stddev_revenue > 2` does evaluate a
division by zero: PostgreSQL raises, `execute_query` swallows the error into
`None`, and `detect_anomalies` returns `[]`.  The claim's "never raises or
evaluates a division by zero" fails, even though no day is flagged and no
exception reaches the caller. -/
theorem claim_C1_counterexample :
    2 ≤ (equalDaysDs.dailySales todayX).length ∧
    equalDaysDs.dailyVariance todayX = 0 ∧
    equalDaysDs.anomalyQuery todayX = Except.error SqlErr.divisionByZero ∧
    detect_anomalies equalDaysDs todayX = [] := by
  have hq : equalDaysDs.anomalyQuery todayX = Except.error SqlErr.divisionByZero := by
    norm_num [Dataset.anomalyQuery, Dataset.dailySales, Dataset.dailyVariance,
      Dataset.dailyMean, Dataset.dayRevenue, Dataset.windowOrders, equalDaysDs,
      todayX, Date.toRata]
  refine ⟨?_, ?_, hq, ?_⟩
  · norm_num [Dataset.dailySales, Dataset.windowOrders, equalDaysDs, todayX,
      Date.toRata]
  · norm_num [Dataset.dailySales, Dataset.dailyVariance, Dataset.dailyMean,
      Dataset.dayRevenue, Dataset.windowOrders, equalDaysDs, todayX, Date.toRata]
  · simp [detect_anomalies, hq]

/-! ## Claim C1 (amended) -/

/-- For a positive variance `v`, the squared-scale test of `anomalyFlag` is
exactly the query's z-score test `|d - m| / stddev > 2` with
`stddev = sqrt v`. -/
theorem anomalyFlag_iff_zscore (d m v : ℚ) (hv : 0 < v) :
    anomalyFlag d m v = true ↔
      2 < |(d : ℝ) - (m : ℝ)| / Real.sqrt ((v : ℚ) : ℝ) := by
  rw [anomalyFlag, decide_eq_true_eq]
  have hv' : (0 : ℝ) < ((v : ℚ) : ℝ) := by exact_mod_cast hv
  have hs : 0 < Real.sqrt ((v : ℚ) : ℝ) := Real.sqrt_pos.mpr hv'
  rw [lt_div_iff₀ hs]
  constructor
  · intro h
    have hR : 4 * ((v : ℚ) : ℝ) < ((d : ℝ) - (m : ℝ)) ^ 2 := by exact_mod_cast h
    have h1 : (2 * Real.sqrt ((v : ℚ) : ℝ)) ^ 2 < |(d : ℝ) - (m : ℝ)| ^ 2 := by
      rw [mul_pow, Real.sq_sqrt hv'.le, sq_abs]
      nlinarith
    exact lt_of_pow_lt_pow_left₀ 2 (abs_nonneg _) h1
  · intro h
    have h1 : (2 * Real.sqrt ((v : ℚ) : ℝ)) ^ 2 < |(d : ℝ) - (m : ℝ)| ^ 2 :=
      pow_lt_pow_left₀ h (by positivity) two_ne_zero
    rw [mul_pow, Real.sq_sqrt hv'.le, sq_abs] at h1
    have : 4 * v < (d - m) ^ 2 := by
      have h2 : (2 : ℝ) ^ 2 * ((v : ℚ) : ℝ) < ((d : ℝ) - (m : ℝ)) ^ 2 := h1
      exact_mod_cast (by nlinarith : 4 * ((v : ℚ) : ℝ) < ((d : ℝ) - (m : ℝ)) ^ 2)
    exact this

/-- Every `daily_sales` row is its date paired with that date's revenue. -/
theorem dailySales_mem_eq (ds : Dataset) (today : Date) (p : Date × ℚ)
    (hp : p ∈ ds.dailySales today) : p = (p.1, ds.dayRevenue today p.1) := by
  unfold Dataset.dailySales at hp
  rw [List.mem_map] at hp
  obtain ⟨d, _, rfl⟩ := hp
  rfl

/-- With fewer than two daily-sales rows the sample-variance expression of
the embedding evaluates to 0 (in SQL it is the `NULL` that makes the `WHERE`
filter all rows; the embedding's branch on the row count keeps the two cases
apart). -/
theorem dailyVariance_eq_zero_of_short (ds : Dataset) (today : Date)
    (h : (ds.dailySales today).length < 2) : ds.dailyVariance today = 0 := by
  unfold Dataset.dailyVariance
  rcases hsd : ds.dailySales today with _ | ⟨a, tl⟩
  · simp
  · rcases tl with _ | ⟨b, l⟩
    · norm_num
    · rw [hsd] at h
      simp at h
      omega

/-- C1, amended: when the per-day revenues of the 90-day window have fewer
than two rows or zero sample variance, `detect_anomalies` flags no day and
returns `[]` (for zero variance with two or more rows this happens through a
swallowed division-by-zero database error, see the counterexample); with
positive variance, a day is flagged exactly when `|day_revenue - mean| /
stddev > 2`, and every flagged day is classified `spike` when its revenue
exceeds the mean and `drop` otherwise. -/
theorem claim_C1_amended (ds : Dataset) (today : Date) :
    ((ds.dailySales today).length < 2 ∨ ds.dailyVariance today = 0 →
      detect_anomalies ds today = []) ∧
    (0 < ds.dailyVariance today →
      ∀ p ∈ ds.dailySales today,
        ((∃ r ∈ detect_anomalies ds today, r.sale_date = p.1) ↔
          2 < |(p.2 : ℝ) - ((ds.dailyMean today : ℚ) : ℝ)| /
            Real.sqrt ((ds.dailyVariance today : ℚ) : ℝ))) ∧
    (∀ r ∈ detect_anomalies ds today,
      r.anomaly_type = (if r.mean_revenue < r.daily_revenue then "spike" else "drop")) := by
  refine ⟨fun h => ?_, fun hv p hp => ?_, fun r hr => ?_⟩
  · rcases h with h | h
    · simp [detect_anomalies, Dataset.anomalyQuery, h]
    · by_cases h2 : (ds.dailySales today).length < 2
      · simp [detect_anomalies, Dataset.anomalyQuery, h2]
      · simp [detect_anomalies, Dataset.anomalyQuery, h2, h]
  · have hv0 : ds.dailyVariance today ≠ 0 := ne_of_gt hv
    have hlen : ¬ (ds.dailySales today).length < 2 := fun hlt =>
      hv0 (dailyVariance_eq_zero_of_short ds today hlt)
    have hq : ds.anomalyQuery today = Except.ok
        (((ds.dailySales today).filter (fun q =>
          anomalyFlag q.2 (ds.dailyMean today) (ds.dailyVariance today))).insertionSort
          (absDevGE (ds.dailyMean today))) := by
      rw [Dataset.anomalyQuery]
      rw [if_neg hlen, if_neg hv0]
    rw [← anomalyFlag_iff_zscore p.2 (ds.dailyMean today) (ds.dailyVariance today) hv]
    constructor
    · rintro ⟨r, hr, hdate⟩
      rw [detect_anomalies, hq] at hr
      dsimp only at hr
      rw [List.mem_map] at hr
      obtain ⟨q, hqmem, hqr⟩ := hr
      have hqfilter := (List.perm_insertionSort (absDevGE (ds.dailyMean today)) _).subset hqmem
      have hqflag := (List.mem_filter.mp hqfilter).2
      have hqsd := (List.mem_filter.mp hqfilter).1
      have hq1 : q.1 = p.1 := by rw [← hqr] at hdate; exact hdate
      have : q = p := by
        rw [dailySales_mem_eq ds today q hqsd, dailySales_mem_eq ds today p hp, hq1]
      rw [← this]
      exact hqflag
    · intro hflag
      refine ⟨{ sale_date := p.1, daily_revenue := p.2
                mean_revenue := ds.dailyMean today
                anomaly_type := if ds.dailyMean today < p.2 then "spike" else "drop" },
        ?_, rfl⟩
      rw [detect_anomalies, hq]
      dsimp only
      rw [List.mem_map]
      exact ⟨p, (List.perm_insertionSort (absDevGE (ds.dailyMean today)) _).mem_iff.mpr
        (List.mem_filter.mpr ⟨hp, hflag⟩), rfl⟩
  · rw [detect_anomalies] at hr
    rcases hq : ds.anomalyQuery today with e | days
    · rw [hq] at hr
      simp at hr
    · rw [hq] at hr
      dsimp only at hr
      rw [List.mem_map] at hr
      obtain ⟨q, _, hqr⟩ := hr
      rw [← hqr]

/-- C1, witness: the amended zero-variance branch applied to the
equal-revenue fixture. -/
theorem claim_C1_witness : detect_anomalies equalDaysDs todayX = [] :=
  (claim_C1_amended equalDaysDs todayX).1 (Or.inr (by
    norm_num [Dataset.dailySales, Dataset.dailyVariance, Dataset.dailyMean,
      Dataset.dayRevenue, Dataset.windowOrders, equalDaysDs, todayX, Date.toRata]))

/-! ## Claim C6 -/

/-- Spec-side definition (for comparison with `customer_retention_rate`):
cohort A of the claim, "the set of distinct customers with an order in the
single-month window ending `months_back` months ago", as a finite set. -/
def specCohortA (ds : Dataset) (today : Date) (months_back : Nat) : Finset Nat :=
  ((ds.orders.filter (fun o =>
    decide (((today.subMonths months_back).subMonths 1).toRata ≤ o.order_date.toRata ∧
      o.order_date.toRata < (today.subMonths months_back).toRata))).map
    (fun o => o.customer_id)).toFinset

/-- Spec-side definition: cohort B of the claim, "the set of distinct
customers with an order in the last 1 month", as a finite set. -/
def specCohortB (ds : Dataset) (today : Date) : Finset Nat :=
  ((ds.orders.filter (fun o =>
    decide ((today.subMonths 1).toRata ≤ o.order_date.toRata))).map
    (fun o => o.customer_id)).toFinset

/-- Counting a nodup-filtered dedup list is counting a finite intersection. -/
theorem dedup_filter_mem_length {α : Type} [DecidableEq α] (l r : List α) :
    ((l.dedup.filter (fun a => decide (a ∈ r.dedup))).length) =
      (l.toFinset ∩ r.toFinset).card := by
  have h1 : (l.dedup.filter (fun a => decide (a ∈ r.dedup))).Nodup :=
    (l.nodup_dedup).filter _
  have h2 : (l.dedup.filter (fun a => decide (a ∈ r.dedup))).toFinset =
      l.toFinset ∩ r.toFinset := by
    ext a
    simp [List.mem_filter, List.mem_dedup]
  rw [← List.toFinset_card_of_nodup h1, h2]

/-- C6: for every dataset, reference date and `months_back`,
`customer_retention_rate` returns `|A ∩ B| / |A| * 100` over the two cohort
sets, and 0 when cohort A is empty — a total function, so no division error
can be raised. -/
theorem claim_C6 (ds : Dataset) (today : Date) (months_back : Nat) :
    customer_retention_rate ds today months_back =
      (if specCohortA ds today months_back = ∅ then 0 else
        (((specCohortA ds today months_back ∩ specCohortB ds today).card : ℚ) /
          ((specCohortA ds today months_back).card : ℚ)) * 100) := by
  have hA : (ds.pastCustomers today months_back).length =
      (specCohortA ds today months_back).card :=
    (List.card_toFinset _).symm
  have hRet : ((ds.pastCustomers today months_back).filter
      (fun cid => decide (cid ∈ ds.recentCustomers today))).length =
      (specCohortA ds today months_back ∩ specCohortB ds today).card :=
    dedup_filter_mem_length _ _
  unfold customer_retention_rate
  dsimp only
  rw [hA, hRet]
  by_cases h : specCohortA ds today months_back = ∅
  · simp [h]
  · rw [if_pos, if_neg h]
    exact Finset.card_pos.mpr (Finset.nonempty_iff_ne_empty.mpr h)

/-! ## Claim C10 -/

/-- Every summary row belongs to a customer of the snapshot. -/
theorem mem_summary_name (ds : Dataset) (s : CustomerOrderSummary)
    (h : s ∈ ds.customer_order_summary) :
    ∃ c ∈ ds.customers, c.customer_name = s.customer_name := by
  unfold Dataset.customer_order_summary at h
  rw [List.mem_map] at h
  obtain ⟨c, hc, rfl⟩ := h
  exact ⟨c, hc, rfl⟩

/-- Evaluation of `segment_customers` on the six-order fixture: `Alice`
appears under `frequent`, `big_spender` and `new` simultaneously. -/
theorem segment_six_eval :
    segment_customers sixOrdersDs todayX =
      [("frequent", ["Alice"]), ("big_spender", ["Alice"]),
       ("at_risk", []), ("new", ["Alice"])] := by
  have h6 : ({ year := 2023, month := 6, day := 15 } : Date).subMonths 6 =
      { year := 2022, month := 12, day := 15 } := by decide
  have h3 : ({ year := 2023, month := 6, day := 15 } : Date).subMonths 3 =
      { year := 2023, month := 3, day := 15 } := by decide
  have h1 : ({ year := 2023, month := 6, day := 15 } : Date).subMonths 1 =
      { year := 2023, month := 5, day := 15 } := by decide
  norm_num [segment_customers, Dataset.frequentCustomers, Dataset.bigSpenders,
    Dataset.atRiskCustomers, Dataset.newCustomers, Dataset.customer_order_summary,
    Dataset.customerOrders, Dataset.totalSpent, minOrderDate, maxOrderDate,
    h6, h3, h1, Date.toRata, sixOrdersDs, juneOrder, cust1, todayX]

/-- C10: `segment_customers` always returns exactly the four keys
`frequent`, `big_spender`, `at_risk`, `new` in this order (even when every
list is empty, since the Python dictionary is initialised with all four);
every listed entry is the name of a customer of the snapshot; and the same
customer can appear under several keys (witnessed by the six-order fixture,
where `Alice` is simultaneously `frequent` and `big_spender`). -/
theorem claim_C10 (ds : Dataset) (today : Date) :
    ((segment_customers ds today).map Prod.fst =
      ["frequent", "big_spender", "at_risk", "new"]) ∧
    (∀ kv ∈ segment_customers ds today, ∀ n ∈ kv.2,
      ∃ c ∈ ds.customers, c.customer_name = n) ∧
    (∃ kv1 ∈ segment_customers sixOrdersDs todayX,
      ∃ kv2 ∈ segment_customers sixOrdersDs todayX,
        kv1.1 ≠ kv2.1 ∧ ∃ n, n ∈ kv1.2 ∧ n ∈ kv2.2) := by
  refine ⟨rfl, fun kv hkv n hn => ?_, ?_⟩
  · simp only [segment_customers, List.mem_cons, List.not_mem_nil, or_false] at hkv
    rcases hkv with h | h | h | h <;> subst h <;> dsimp only at hn
    · unfold Dataset.frequentCustomers at hn
      rw [List.mem_map] at hn
      obtain ⟨c, hc, rfl⟩ := hn
      exact ⟨c, List.mem_of_mem_filter hc, rfl⟩
    · unfold Dataset.bigSpenders at hn
      rw [List.mem_map] at hn
      obtain ⟨s, hs, rfl⟩ := hn
      exact mem_summary_name ds s (List.mem_of_mem_filter hs)
    · unfold Dataset.atRiskCustomers at hn
      rw [List.mem_map] at hn
      obtain ⟨s, hs, rfl⟩ := hn
      exact mem_summary_name ds s (List.mem_of_mem_filter hs)
    · unfold Dataset.newCustomers at hn
      rw [List.mem_map] at hn
      obtain ⟨s, hs, rfl⟩ := hn
      exact mem_summary_name ds s (List.mem_of_mem_filter hs)
  · refine ⟨("frequent", ["Alice"]), ?_, ("big_spender", ["Alice"]), ?_, ?_, "Alice", ?_, ?_⟩
    · rw [segment_six_eval]
      simp
    · rw [segment_six_eval]
      simp
    · simp
    · simp
    · simp

/-- C10, witness: the structural facts applied to the six-order fixture. -/
theorem claim_C10_witness :
    ∃ c ∈ sixOrdersDs.customers, c.customer_name = "Alice" :=
  (claim_C10 sixOrdersDs todayX).2.1 ("frequent", ["Alice"])
    (by rw [segment_six_eval]; simp) "Alice" (by simp)

/-! ## Claim C8 -/

/-- An empty order list has no minimum order date. -/
theorem minOrderDate_eq_none_of_nil : minOrderDate [] = none := rfl

/-- A `foldl` that starts from a present date stays present. -/
theorem minMaxFold_some (f : Option Date → Order → Option Date)
    (hf : ∀ d o, (f (some d) o).isSome) (os : List Order) (d : Date) :
    (os.foldl f (some d)).isSome := by
  induction os generalizing d with
  | nil => rfl
  | cons o os ih =>
    have h := hf d o
    rcases ho : f (some d) o with _ | d'
    · rw [ho] at h; exact absurd h (by simp)
    · simpa [ho] using ih d'

/-- A nonempty order list has a minimum order date. -/
theorem minOrderDate_isSome (o : Order) (os : List Order) :
    (minOrderDate (o :: os)).isSome := by
  unfold minOrderDate
  have : minOrderDate.match_1 (fun _ => Option Date) none (fun _ => some o.order_date)
      (fun d => if o.order_date.toRata < d.toRata then some o.order_date else some d) =
      some o.order_date := rfl
  simp only [List.foldl_cons]
  refine minMaxFold_some _ (fun d o2 => ?_) os _
  dsimp only
  split <;> simp

/-- C8: `predicted_clv` follows the claim's formula: 0 for a customer with
zero orders; `avg_order_value * 20` for a customer with exactly one order
(`years_active` floors to 0.1); in general `avg_order_value * (total_orders /
max(years_active, 0.1)) * 2` with `years_active = (last_order_date -
first_order_date) in days / 365`; and every row of
`get_customer_lifetime_value` carries (the 2-decimal rounding of) this value
for its customer. -/
theorem claim_C8 (ds : Dataset) (c : Customer) (today : Date) :
    (ds.customerOrders c.customer_id = [] →
      predicted_clv (ds.customerMetrics c) today = 0) ∧
    (∀ o : Order, ds.customerOrders c.customer_id = [o] →
      predicted_clv (ds.customerMetrics c) today =
        (ds.customerMetrics c).avg_order_value * 20) ∧
    (∀ fd ld : Date, (ds.customerMetrics c).first_order_date = some fd →
      (ds.customerMetrics c).last_order_date = some ld →
      predicted_clv (ds.customerMetrics c) today =
        (ds.customerMetrics c).avg_order_value *
          (((ds.customerMetrics c).total_orders : ℚ) /
            max (((ld.toRata - fd.toRata : Int) : ℚ) / 365) (1 / 10)) * 2) ∧
    (∀ (oid : Option Nat), ∀ r ∈ get_customer_lifetime_value ds today oid,
      ∃ c2 ∈ ds.customers, r.customer_name = c2.customer_name ∧
        r.predicted_clv = roundq2 (predicted_clv (ds.customerMetrics c2) today)) := by
  refine ⟨fun h => ?_, fun o h => ?_, fun fd ld hf hl => ?_, fun oid r hr => ?_⟩
  · simp [predicted_clv, Dataset.customerMetrics, h]
  · have hmax : max ((((Order.order_date o).toRata - (Order.order_date o).toRata : Int) : ℚ) / 365)
        ((1 : ℚ) / 10) = 1 / 10 := by norm_num
    simp only [predicted_clv, Dataset.customerMetrics, h, List.length_cons,
      List.length_nil, minOrderDate, maxOrderDate, List.foldl_cons, List.foldl_nil]
    norm_num
    ring
  · have hne : ds.customerOrders c.customer_id ≠ [] := by
      intro hnil
      rw [Dataset.customerMetrics] at hf
      simp only [hnil] at hf
      exact Option.noConfusion (hf.symm.trans minOrderDate_eq_none_of_nil)
    have hlen : (ds.customerOrders c.customer_id).length ≠ 0 :=
      fun h0 => hne (List.length_eq_zero.mp h0)
    have htot : (ds.customerMetrics c).total_orders =
        (ds.customerOrders c.customer_id).length := rfl
    rw [predicted_clv, hf, hl]
    simp only [htot, hlen, if_false, Option.getD_some]
  · unfold get_customer_lifetime_value at hr
    dsimp only at hr
    have hr2 := List.take_subset _ _ hr
    have hr3 := (List.perm_insertionSort clvGE _).subset hr2
    rw [List.mem_map] at hr3
    obtain ⟨c2, hc2, hrow⟩ := hr3
    refine ⟨c2, ?_, ?_, ?_⟩
    · rcases oid with _ | cid
      · exact hc2
      · dsimp only at hc2
        by_cases h0 : cid = 0
        · simpa [h0] using hc2
        · rw [if_neg h0] at hc2
          exact List.mem_of_mem_filter hc2
    · rw [← hrow]
      rfl
    · rw [← hrow]

/-- C8, witness: the one-order customer `Alice` (single order of 200) gets
`predicted_clv = avg_order_value * 20`. -/
theorem claim_C8_witness :
    predicted_clv (oneOrderDs.customerMetrics cust1) todayX =
      (oneOrderDs.customerMetrics cust1).avg_order_value * 20 :=
  (claim_C8 oneOrderDs cust1 todayX).2.1 orderA (by norm_num [Dataset.customerOrders,
    oneOrderDs, orderA, cust1])

/-! ## Claim C7 -/

/-- The classification `CASE` read back: class `A` means cumulative ≤ 80. -/
theorem abcClass_eq_A_iff (cp : ℚ) : abcClass cp = "A" ↔ cp ≤ 80 := by
  unfold abcClass
  split_ifs with h1 h2
  · simp [h1]
  · simp [h1]
  · simp [h1]

/-- Class `B` means 80 < cumulative ≤ 95. -/
theorem abcClass_eq_B_iff (cp : ℚ) : abcClass cp = "B" ↔ 80 < cp ∧ cp ≤ 95 := by
  unfold abcClass
  split_ifs with h1 h2
  · constructor
    · intro h
      exact absurd h (by simp)
    · rintro ⟨h, -⟩
      linarith
  · simp [not_le.mp h1, h2]
  · constructor
    · intro h
      exact absurd h (by simp)
    · rintro ⟨-, h⟩
      exact absurd h h2

/-- Class `C` means 95 < cumulative. -/
theorem abcClass_eq_C_iff (cp : ℚ) : abcClass cp = "C" ↔ 95 < cp := by
  unfold abcClass
  split_ifs with h1 h2
  · constructor
    · intro h
      exact absurd h (by simp)
    · intro h
      linarith
  · constructor
    · intro h
      exact absurd h (by simp)
    · intro h
      linarith
  · simp [not_le.mp h2]

/-- Membership in the `classified` CTE, via the permutation of the sort. -/
theorem mem_classifiedRows (ds : Dataset) (r : ABCRow) :
    r ∈ ds.classifiedRows ↔ ∃ pr ∈ ds.positiveRevenueRows,
      r = { product_name := pr.product_name, category := pr.category_name
            total_revenue := pr.total_revenue
            cumulative_percent := ds.cumulativePercent pr.total_revenue } := by
  unfold Dataset.classifiedRows
  rw [List.mem_map]
  constructor
  · rintro ⟨pr, hpr, rfl⟩
    exact ⟨pr, (List.perm_insertionSort prodRevGE _).subset hpr, rfl⟩
  · rintro ⟨pr, hpr, rfl⟩
    exact ⟨pr, (List.perm_insertionSort prodRevGE _).mem_iff.mpr hpr, rfl⟩

/-- Rows that survived the `WHERE total_revenue > 0` filter are positive. -/
theorem positiveRevenueRows_pos (ds : Dataset) (pr : ProdRev)
    (h : pr ∈ ds.positiveRevenueRows) : 0 < pr.total_revenue := by
  have := (List.mem_filter.mp h).2
  simpa using this

/-- A nonempty positive-revenue table has positive total revenue. -/
theorem totalAllRevenue_pos (ds : Dataset) (pr : ProdRev)
    (h : pr ∈ ds.positiveRevenueRows) : 0 < ds.totalAllRevenue := by
  have h1 : pr.total_revenue ≤ ds.totalAllRevenue := by
    unfold Dataset.totalAllRevenue
    refine List.single_le_sum (fun a ha => ?_) _ (List.mem_map_of_mem _ h)
    rw [List.mem_map] at ha
    obtain ⟨q, hq, rfl⟩ := ha
    exact (positiveRevenueRows_pos ds q hq).le
  exact lt_of_lt_of_le (positiveRevenueRows_pos ds pr h) h1

/-- Shrinking a filter cannot grow the sum of a nonnegative column. -/
theorem sum_map_filter_mono (l : List ProdRev) (p q : ProdRev → Bool)
    (himp : ∀ x ∈ l, p x = true → q x = true)
    (hnn : ∀ x ∈ l, 0 ≤ x.total_revenue) :
    ((l.filter p).map (fun r => r.total_revenue)).sum ≤
      ((l.filter q).map (fun r => r.total_revenue)).sum := by
  induction l with
  | nil => simp
  | cons x xs ih =>
    have hx := hnn x (List.mem_cons_self x xs)
    have ihs := ih (fun a ha hp => himp a (List.mem_cons_of_mem x ha) hp)
      (fun a ha => hnn a (List.mem_cons_of_mem x ha))
    by_cases hp : p x = true
    · rw [List.filter_cons_of_pos hp, List.filter_cons_of_pos (himp x (List.mem_cons_self x xs) hp)]
      simpa using ihs
    · rw [List.filter_cons_of_neg (by simpa using hp)]
      by_cases hq : q x = true
      · rw [List.filter_cons_of_pos hq]
        simp only [List.map_cons, List.sum_cons]
        exact le_add_of_nonneg_of_le hx ihs
      · rw [List.filter_cons_of_neg (by simpa using hq)]
        exact ihs

/-- The `RANGE`-framed running revenue is antitone in the revenue value. -/
theorem runningRevenue_antitone (ds : Dataset) {v w : ℚ} (hvw : v ≤ w) :
    ds.runningRevenue w ≤ ds.runningRevenue v := by
  unfold Dataset.runningRevenue
  refine sum_map_filter_mono _ _ _ (fun x _ hx => ?_) (fun x hx => ?_)
  · rw [decide_eq_true_eq] at hx ⊢
    exact le_trans hvw hx
  · exact (positiveRevenueRows_pos ds x hx).le

/-- Hence the cumulative percent is antitone in the revenue value. -/
theorem cumulativePercent_antitone (ds : Dataset) (htot : 0 < ds.totalAllRevenue)
    {v w : ℚ} (hvw : v ≤ w) :
    ds.cumulativePercent w ≤ ds.cumulativePercent v := by
  unfold Dataset.cumulativePercent
  gcongr
  exact runningRevenue_antitone ds hvw

/-- All result rows of `abc_analysis`, across the three lists, are exactly
the `classified` rows. -/
theorem mem_allRows_iff (ds : Dataset) (r : ABCRow) :
    r ∈ (abc_analysis ds).allRows ↔ r ∈ ds.classifiedRows := by
  unfold abc_analysis ABCResult.allRows
  dsimp only
  rw [List.mem_append, List.mem_append]
  constructor
  · rintro ((h | h) | h) <;> exact List.mem_of_mem_filter h
  · intro h
    by_cases hA : abcClass r.cumulative_percent = "A"
    · exact Or.inl (Or.inl (List.mem_filter.mpr ⟨h, beq_iff_eq.mpr hA⟩))
    · by_cases hB : abcClass r.cumulative_percent = "B"
      · exact Or.inl (Or.inr (List.mem_filter.mpr ⟨h, beq_iff_eq.mpr hB⟩))
      · have hC : abcClass r.cumulative_percent = "C" := by
          by_cases h80 : r.cumulative_percent ≤ 80
          · exact absurd ((abcClass_eq_A_iff _).mpr h80) hA
          · by_cases h95 : r.cumulative_percent ≤ 95
            · exact absurd ((abcClass_eq_B_iff _).mpr ⟨not_le.mp h80, h95⟩) hB
            · exact (abcClass_eq_C_iff _).mpr (not_le.mp h95)
        exact Or.inr (List.mem_filter.mpr ⟨h, beq_iff_eq.mpr hC⟩)

/-- Structure of a result row: positive revenue, and the exposed cumulative
percent is the running-revenue percentage of its revenue value. -/
theorem allRows_fields (ds : Dataset) (r : ABCRow)
    (h : r ∈ (abc_analysis ds).allRows) :
    0 < r.total_revenue ∧
      r.cumulative_percent = ds.cumulativePercent r.total_revenue ∧
      0 < ds.totalAllRevenue := by
  obtain ⟨pr, hpr, rfl⟩ := (mem_classifiedRows ds r).mp ((mem_allRows_iff ds r).mp h)
  exact ⟨positiveRevenueRows_pos ds pr hpr, rfl, totalAllRevenue_pos ds pr hpr⟩

/-- Comparing two result rows: the one whose cumulative percent is strictly
smaller has at least the other's revenue. -/
theorem revenue_le_of_cum_lt (ds : Dataset) (a b : ABCRow)
    (ha : a ∈ (abc_analysis ds).allRows) (hb : b ∈ (abc_analysis ds).allRows)
    (hcum : a.cumulative_percent < b.cumulative_percent) :
    b.total_revenue ≤ a.total_revenue := by
  obtain ⟨-, hacum, htot⟩ := allRows_fields ds a ha
  obtain ⟨-, hbcum, -⟩ := allRows_fields ds b hb
  by_contra hrev
  push_neg at hrev
  have := cumulativePercent_antitone ds htot hrev.le
  rw [← hacum, ← hbcum] at this
  exact absurd hcum (not_lt.mpr this)

/-- The per-class threshold facts, read off the filters. -/
theorem mem_class_cum (ds : Dataset) (r : ABCRow) :
    (r ∈ (abc_analysis ds).A → r.cumulative_percent ≤ 80) ∧
    (r ∈ (abc_analysis ds).B → 80 < r.cumulative_percent ∧ r.cumulative_percent ≤ 95) ∧
    (r ∈ (abc_analysis ds).C → 95 < r.cumulative_percent) := by
  unfold abc_analysis
  dsimp only
  refine ⟨fun h => ?_, fun h => ?_, fun h => ?_⟩
  · exact (abcClass_eq_A_iff _).mp (beq_iff_eq.mp (List.mem_filter.mp h).2)
  · exact (abcClass_eq_B_iff _).mp (beq_iff_eq.mp (List.mem_filter.mp h).2)
  · exact (abcClass_eq_C_iff _).mp (beq_iff_eq.mp (List.mem_filter.mp h).2)

/-- The `classified` rows are pairwise sorted by descending revenue. -/
theorem classifiedRows_sorted (ds : Dataset) :
    ds.classifiedRows.Pairwise (fun x y : ABCRow => y.total_revenue ≤ x.total_revenue) := by
  unfold Dataset.classifiedRows
  exact (List.sorted_insertionSort prodRevGE ds.positiveRevenueRows).map _
    (fun a b hab => hab)

/-- C7: `abc_analysis` excludes zero-revenue products before ranking, ranks
the remaining products by descending revenue (each class list is sorted
descending, and classes descend blockwise from A to C), exposes for every
product its class (the list it sits in) together with its cumulative revenue
percent — `100 * (revenue of all kept products with revenue ≥ this one's) /
(total kept revenue)`, the `RANGE`-framed running percentage — and assigns
class `A` exactly while that percent is ≤ 80, `B` while ≤ 95, `C` beyond;
every positive-revenue product with a resolvable category appears. -/
theorem claim_C7 (ds : Dataset) :
    (∀ r ∈ (abc_analysis ds).allRows,
      0 < r.total_revenue ∧
        r.cumulative_percent =
          ds.runningRevenue r.total_revenue / ds.totalAllRevenue * 100) ∧
    (∀ r ∈ (abc_analysis ds).A, r.cumulative_percent ≤ 80) ∧
    (∀ r ∈ (abc_analysis ds).B, 80 < r.cumulative_percent ∧ r.cumulative_percent ≤ 95) ∧
    (∀ r ∈ (abc_analysis ds).C, 95 < r.cumulative_percent) ∧
    ((abc_analysis ds).A.Pairwise (fun x y : ABCRow => y.total_revenue ≤ x.total_revenue) ∧
     (abc_analysis ds).B.Pairwise (fun x y : ABCRow => y.total_revenue ≤ x.total_revenue) ∧
     (abc_analysis ds).C.Pairwise (fun x y : ABCRow => y.total_revenue ≤ x.total_revenue)) ∧
    (∀ a ∈ (abc_analysis ds).A, ∀ b ∈ (abc_analysis ds).B, b.total_revenue ≤ a.total_revenue) ∧
    (∀ b ∈ (abc_analysis ds).B, ∀ c ∈ (abc_analysis ds).C, c.total_revenue ≤ b.total_revenue) ∧
    (∀ a ∈ (abc_analysis ds).A, ∀ c ∈ (abc_analysis ds).C, c.total_revenue ≤ a.total_revenue) ∧
    (∀ p ∈ ds.products, ∀ cat, ds.findCategory p.category_id = some cat →
      0 < ds.productRevenue p.product_id →
      ∃ r ∈ (abc_analysis ds).allRows,
        r.product_name = p.product_name ∧ r.category = cat.category_name ∧
        r.total_revenue = ds.productRevenue p.product_id) := by
  have hmemA : ∀ r, r ∈ (abc_analysis ds).A → r ∈ (abc_analysis ds).allRows := by
    intro r h
    unfold ABCResult.allRows
    exact List.mem_append_left _ (List.mem_append_left _ h)
  have hmemB : ∀ r, r ∈ (abc_analysis ds).B → r ∈ (abc_analysis ds).allRows := by
    intro r h
    unfold ABCResult.allRows
    exact List.mem_append_left _ (List.mem_append_right _ h)
  have hmemC : ∀ r, r ∈ (abc_analysis ds).C → r ∈ (abc_analysis ds).allRows := by
    intro r h
    unfold ABCResult.allRows
    exact List.mem_append_right _ h
  refine ⟨fun r hr => ?_, fun r hr => (mem_class_cum ds r).1 hr,
    fun r hr => (mem_class_cum ds r).2.1 hr, fun r hr => (mem_class_cum ds r).2.2 hr,
    ⟨(classifiedRows_sorted ds).filter _, (classifiedRows_sorted ds).filter _,
      (classifiedRows_sorted ds).filter _⟩,
    fun a haa b hbb => ?_, fun b hbb c hcc => ?_, fun a haa c hcc => ?_,
    fun p hp cat hcat hpos => ?_⟩
  · obtain ⟨hpos, hcum, -⟩ := allRows_fields ds r hr
    exact ⟨hpos, hcum⟩
  · refine revenue_le_of_cum_lt ds a b (hmemA a haa) (hmemB b hbb) ?_
    exact lt_of_le_of_lt ((mem_class_cum ds a).1 haa) ((mem_class_cum ds b).2.1 hbb).1
  · refine revenue_le_of_cum_lt ds b c (hmemB b hbb) (hmemC c hcc) ?_
    exact lt_of_le_of_lt ((mem_class_cum ds b).2.1 hbb).2 ((mem_class_cum ds c).2.2 hcc)
  · refine revenue_le_of_cum_lt ds a c (hmemA a haa) (hmemC c hcc) ?_
    exact lt_of_le_of_lt ((mem_class_cum ds a).1 haa)
      (lt_trans (by norm_num) ((mem_class_cum ds c).2.2 hcc))
  · have hprmem : ds.prodRevRowOf p cat ∈ ds.positiveRevenueRows := by
      unfold Dataset.positiveRevenueRows Dataset.productRevenueRows
      refine List.mem_filter.mpr ⟨?_, by simpa [Dataset.prodRevRowOf] using hpos⟩
      rw [List.mem_filterMap]
      exact ⟨p, hp, by rw [hcat]; rfl⟩
    refine ⟨{ product_name := p.product_name, category := cat.category_name
              total_revenue := ds.productRevenue p.product_id
              cumulative_percent :=
                ds.cumulativePercent (ds.productRevenue p.product_id) }, ?_, rfl, rfl, rfl⟩
    rw [mem_allRows_iff, mem_classifiedRows]
    exact ⟨ds.prodRevRowOf p cat, hprmem, rfl⟩

/-- C7, witness: applied to the concrete scenario, where the sole positive
product P1 sits in class `C` with cumulative percent 100. -/
theorem claim_C7_witness :
    95 < ({ product_name := "P1", category := "Cat", total_revenue := 200
            cumulative_percent := 100 } : ABCRow).cumulative_percent :=
  (claim_C7 scenarioDs).2.2.2.1 _ (by rw [abc_scenario_eval]; simp)

/-! ## Claim C9 -/

/-- C9: every growth rate over a current/previous pair — the month-over-month
`growth_rate` of both `monthly_trends` (built from `growthRate` over the
`LAG`-paired rows) and the dashboard's sales/orders/customers rates (built
from `guardedGrowth`) — equals `(current - previous) / previous * 100` when
the previous value is positive and is 0 when the previous value is missing
(`NULL` first row, empty previous period) or zero.  All are total rational
functions: no infinity, no NaN, no exception. -/
theorem claim_C9 :
    (∀ rev p : ℚ, 0 < p → growthRate (some p) rev = (rev - p) / p * 100) ∧
    (∀ rev : ℚ, growthRate none rev = 0) ∧
    (∀ rev : ℚ, growthRate (some 0) rev = 0) ∧
    (∀ cur prev : ℚ, 0 < prev → guardedGrowth cur prev = (cur - prev) / prev * 100) ∧
    (∀ cur : ℚ, guardedGrowth cur 0 = 0) ∧
    (∀ (ds : Dataset) (y : Int), monthly_trends ds y =
      List.zipWith mkMTRow (none :: (ds.monthlyData y).map (fun r => some r.revenue))
        (ds.monthlyData y)) ∧
    (∀ (ds : Dataset) (today : Date) (dr : String),
      (get_dashboard_metrics ds today dr).growth_rates =
        { sales_growth := roundq2 (guardedGrowth (ds.currentSales today (dateRangeDays dr))
            (ds.previousSales today (dateRangeDays dr)))
          orders_growth := roundq2 (guardedGrowth
            ((ds.currentOrderCount today (dateRangeDays dr) : Nat) : ℚ)
            ((ds.previousOrderCount today (dateRangeDays dr) : Nat) : ℚ))
          customers_growth := roundq2 (guardedGrowth
            ((ds.currentCustomerCount today (dateRangeDays dr) : Nat) : ℚ)
            ((ds.previousCustomerCount today (dateRangeDays dr) : Nat) : ℚ)) }) := by
  refine ⟨fun rev p hp => ?_, fun rev => rfl, fun rev => ?_,
    fun cur prev hp => ?_, fun cur => ?_, fun ds y => rfl, fun ds today dr => rfl⟩
  · simp [growthRate, hp.ne']
  · simp [growthRate]
  · simp [guardedGrowth, hp]
  · simp [guardedGrowth]

/-- C9, witness: the growth formulas at the concrete pair (current 5,
previous 4). -/
theorem claim_C9_witness :
    growthRate (some 4) 5 = (5 - 4) / 4 * 100 ∧
    guardedGrowth 5 4 = (5 - 4) / 4 * 100 :=
  ⟨claim_C9.1 5 4 (by norm_num), claim_C9.2.2.2.1 5 4 (by norm_num)⟩

end InterviewPrep
